import Mathlib

/-!
A shallow embedding of `fastlogging/fastlogging.py` (the per-domain logger of
the fastlogging package) together with theorems checking the repository's
specification against it.

The embedding models the logger as a pure state structure `Lg`; each Python
method becomes a function from (arguments and) a state to a new state, with
fallible operations returning `Except String`.  Console rendering, the console
background sink and the network shipping module are outside the provided
sources and outside the claims, so their side effects are not modelled; the
file handle is modelled as an open/closed flag together with the data written
through it, and the registry `domains` as an association list.
-/

namespace Fastlogging

/-- Modelled from the spec: the log level constants (`NOLOG`, `FATAL`, `ERROR`,
`WARNING`, `INFO`, `DEBUG`, `EXCEPTION`) are imported by `fastlogging.py` from
a package module that is not among the provided sources (spec §6 treats the
level constant definitions as external collaborators).  Only their relative
order is used by the code under verification. -/
def DEBUG : Int := 10

/-- Modelled from the spec: see `DEBUG`. -/
def INFO : Int := 20

/-- Modelled from the spec: see `DEBUG`. -/
def WARNING : Int := 30

/-- Modelled from the spec: see `DEBUG`. -/
def ERROR : Int := 40

/-- Modelled from the spec: see `DEBUG`. -/
def FATAL : Int := 50

/-- Modelled from the spec: see `DEBUG`. -/
def EXCEPTION : Int := 60

/-- Modelled from the spec: see `DEBUG`. -/
def NOLOG : Int := 100

/-- Modelled from the spec: `LOG2SYM`, the level-to-symbol table, comes from the
same missing package module; modelled as a total table over the constants. -/
def LOG2SYM (level : Int) : String :=
  if level = DEBUG then "DEBUG"
  else if level = INFO then "INFO"
  else if level = WARNING then "WARNING"
  else if level = ERROR then "ERROR"
  else if level = FATAL then "FATAL"
  else if level = EXCEPTION then "EXCEPTION"
  else "LOG"

/-- One log record, the tuple `(logTime, domain, level, msg, kwargs)` built in
`Logger.__log` (fastlogging.py lines 160, 162, 164).  Of the keyword arguments
only `exc_info` reaches the default formatter; the rendering hints consumed by
the excluded console sink are not modelled. -/
structure Entry where
  logTime : Int
  domain : String
  level : Int
  msg : String
  excInfo : Option String := none
deriving Repr, DecidableEq

/-- Abstraction of `time.strftime(Logger.dateFmt, time.localtime(logTime))`:
the wall-clock rendering is an OS call, modelled as printing the timestamp. -/
def strfTime (t : Int) : String := toString t

/-- The default formatter of `Logger._logMessage` (lines 277-282, with
`Logger.cbFormatter is None`): timestamp, level symbol, message, and an
appended traceback block when `exc_info` is present. -/
def formatEntry (e : Entry) : String :=
  match e.excInfo with
  | some tb => strfTime e.logTime ++ ": " ++ LOG2SYM e.level ++ ": " ++ e.msg ++ "\n" ++ tb
  | none => strfTime e.logTime ++ ": " ++ LOG2SYM e.level ++ ": " ++ e.msg

/-- The final line produced by `Logger._logMessage` for `(key, entry, cnt)`:
lines 285-287 prepend `"<cnt> times: "` exactly when `key is not None` and
`cnt > 0`. -/
def fmtLine (key : Option String) (cnt : Nat) (e : Entry) : String :=
  if key.isSome ∧ 0 < cnt then toString cnt ++ " times: " ++ formatEntry e
  else formatEntry e

/-- Abstraction of Python printf-style interpolation `msg % args` (line 157);
only `"%s"` substitution with string arguments is modelled.  No claim depends
on the interpolation result itself. -/
def pyModGo : List Char → List String → List Char
  | [], _ => []
  | '%' :: 's' :: rest, a :: as => a.toList ++ pyModGo rest as
  | c :: rest, as => c :: pyModGo rest as

/-- String wrapper for `pyModGo`. -/
def pyMod (msg : String) (args : List String) : String :=
  String.mk (pyModGo msg.toList args)

/-- Python `LastMessage.__init__` (lines 59-64) ignores its arguments and always
initializes `key = None`, `cnt = 1`, `entry = None`; these defaults mirror
that. -/
structure LastMessage where
  key : Option String := none
  cnt : Nat := 1
  entry : Option Entry := none
deriving Repr, DecidableEq

/-- The `threading.Timer` stored in `Logger.__thrTimer`, remembered together
with the callback arguments `(key, entry, 0)` it was armed with
(line 339).  `alive` is false once the timer has fired: the Python attribute
still references the dead timer object, which is observationally different
from `None` (the `is None` checks) but can no longer fire. -/
structure TimerState where
  key : String
  entry : Entry
  alive : Bool
deriving Repr, DecidableEq

/-- An observation-trace element: one call of `Logger._logMessage` with its
`(key, cnt, entry)` arguments.  `emits` below is a ghost trace of these calls;
the rendered line of an element is `fmtLine key cnt entry`. -/
structure Emitted where
  key : Option String
  cnt : Nat
  entry : Entry
deriving Repr, DecidableEq

/-- The state of one `Logger` instance plus the parts of its `CommonConfig`
(queue, wake/rotate signals, rotation limits) that the claims exercise.
`fOpen`/`fileData` model the owned file handle `self.F` and the bytes written
through it; `closes` counts `F.close()` calls and `doubleClose` records a
close of an already-closed handle; `rotated` archives the content moved aside
by a rotation; `emits` is the ghost trace of `_logMessage` calls. -/
structure Lg where
  domain : String
  level : Int
  pathName : Option String := none
  stopped : Bool := false
  useThreads : Bool := false
  hasThrLogger : Bool := false
  sameMsgCountMax : Nat := 0
  lastMsg : LastMessage := {}
  thrTimer : Option TimerState := none
  queue : List (Option Entry) := []
  evtQueue : Bool := false
  evtRotate : Bool := false
  fOpen : Bool := false
  buf : List String := []
  size : Nat := 0
  pos : Int := 0
  maxSize : Int := 0
  backupCnt : Int := 0
  fileData : List String := []
  rotated : List (List String) := []
  closes : Nat := 0
  doubleClose : Bool := false
  emits : List Emitted := []
deriving Repr, DecidableEq

/-- Python `Logger.__writePending` (lines 261-270, with `Logger.cbWriter is None`):
if the buffer is nonempty, join it, clear it, reset `size`, and write the data
to the file. -/
def writePending (st : Lg) : Lg :=
  if st.buf.isEmpty then st
  else { st with fileData := st.fileData ++ st.buf, buf := [], size := 0 }

/-- Python `self.F.close()`: closing an open handle bumps `closes`; closing an
already-closed handle additionally raises the `doubleClose` flag. -/
def closeF (st : Lg) : Lg :=
  if st.fOpen then { st with fOpen := false, closes := st.closes + 1 }
  else { st with closes := st.closes + 1, doubleClose := true }

/-- Python `Logger.__rotate` (lines 225-251) as it affects the logger state: flush
pending bytes, flush and close the file, reset `pos`, move the written content
aside (the on-disk backup shifting is modelled separately by `rotateFS`), and
reopen the file for append. -/
def rotateFile (st : Lg) : Lg :=
  let st := writePending st
  let st := closeF st
  let st := { st with pos := 0 }
  { st with rotated := st.fileData :: st.rotated, fileData := [], fOpen := true }

/-- Python `Logger._logMessage` (lines 272-326) with the default hooks
(`backlog`, `cbFormatter`, `cbWriter` all `None`): format, apply the
`"N times:"` prefix and remember the last message when `key` is given, append
the line to the buffer, then either flush (no rotation configured: at 4096
buffered bytes or always in synchronous mode) or advance `pos` and rotate or
signal rotation at `maxSize`.  The console echo (lines 314-324) belongs to the
excluded console sink and the network mirror (lines 325-326) to the missing
network module; neither is modelled.  Write failures (the `except` at
line 309) are not injected. -/
def logMessage (key : Option String) (e : Entry) (cnt : Nat) (st : Lg) : Lg :=
  let message := fmtLine key cnt e
  let st :=
    match key with
    | some k => { st with lastMsg := { key := some k, cnt := 1, entry := some e } }
    | none => st
  let st := { st with emits := st.emits ++ [Emitted.mk key cnt e] }
  if st.fOpen then
    let sz := message.length + 1
    let st := { st with buf := st.buf ++ [message ++ "\n"], size := st.size + sz }
    if st.maxSize = 0 then
      if 4096 ≤ st.size ∨ st.useThreads = false then writePending st else st
    else
      let st := { st with pos := st.pos + (sz : Int) }
      if st.maxSize ≤ st.pos then
        if st.useThreads then { st with evtRotate := true } else rotateFile st
      else st
  else st

/-- Python `Logger.__logEntry` (lines 328-348) with `Logger.cbMessageKey is None`
(the key is the message text).  A repeat under the `sameMsgCountMax` limit is
absorbed, arming the deferred-flush timer with arguments `(key, entry, 0)` if
none is armed; otherwise a pending run is flushed with the stored entry and
count and the new entry is processed afresh.  Unpacking a `None` stored entry
(impossible in reachable states) is a Python `TypeError`, returned as an
error. -/
def logEntry (e : Entry) (st : Lg) : Except String Lg :=
  let key := e.msg
  if st.lastMsg.key = some key ∧ st.lastMsg.cnt < st.sameMsgCountMax then
    let st := { st with lastMsg := { st.lastMsg with cnt := st.lastMsg.cnt + 1, entry := some e } }
    match st.thrTimer with
    | none => .ok { st with thrTimer := some ⟨key, e, true⟩ }
    | some _ => .ok st
  else
    match st.thrTimer with
    | none => .ok (logMessage (some key) e 0 st)
    | some _ =>
      let st := { st with thrTimer := none }
      match st.lastMsg.entry with
      | none => .error "TypeError"
      | some le => .ok (logMessage (some key) e 0 (logMessage (some key) le st.lastMsg.cnt st))

/-- The deferred-flush timer firing: `threading.Timer` invokes
`self._logMessage(key, entry, 0)` with the arguments captured at arm time
(line 339).  The timer object stays referenced by `self.__thrTimer` (the
callback never clears it), so the state keeps it with `alive := false`. -/
def timerFire (st : Lg) : Lg :=
  match st.thrTimer with
  | some t =>
    if t.alive then
      { logMessage (some t.key) t.entry 0 st with thrTimer := some { t with alive := false } }
    else st
  | none => st

/-- Body of the `while True` loop of `Logger.__logThread` for one normal entry
(lines 372-381): coalesce when `sameMsgCountMax > 0`, else emit directly; any
exception is caught and only reported. -/
def threadHandle (e : Entry) (st : Lg) : Lg :=
  if 0 < st.sameMsgCountMax then
    match logEntry e st with
    | .ok st' => st'
    | .error _ => st
  else logMessage none e 0 st

/-- Python `Logger.__logThread` (lines 350-371) run over an explicit queue prefix:
entries are consumed in order; the `None` sentinel flushes pending bytes,
flushes and closes the file if owned, and terminates the loop (anything after
the sentinel stays queued).  The empty-queue branch (block on `evtQueue`,
handle `evtRotate`) is a wait state and is left as the identity: the runs used
here always end at a sentinel. -/
def logThreadGo : List (Option Entry) → Lg → Lg
  | [], st => st
  | none :: rest, st =>
    let st := if st.fOpen then closeF (writePending st) else st
    { st with queue := rest }
  | some e :: rest, st => logThreadGo rest (threadHandle e st)

/-- Run the background writer thread over the logger's current queue. -/
def runThread (st : Lg) : Lg :=
  logThreadGo st.queue { st with queue := [] }

/-- Python `Logger.__log` (lines 153-165): fail fast when stopped, interpolate the
message if arguments were given, then either process the entry inline
(synchronous mode, or no own writer thread), dispatching through the
coalescing machine when enabled, or append it to the shared queue and set the
wake signal. -/
def log (t : Int) (level : Int) (msg : String) (args : List String)
    (excInfo : Option String) (st : Lg) : Except String Lg :=
  if st.stopped then .error "RuntimeError: Logger already stopped"
  else
    let m := if args.isEmpty then msg else pyMod msg args
    let e : Entry := ⟨t, st.domain, level, m, excInfo⟩
    if st.useThreads = false ∨ st.hasThrLogger = false then
      if 0 < st.sameMsgCountMax then logEntry e st
      else .ok (logMessage none e 0 st)
    else .ok { st with queue := st.queue ++ [some e], evtQueue := true }

/-- Python `Logger.debug` (lines 170-172). -/
def debug (t : Int) (msg : String) (args : List String) (excInfo : Option String)
    (st : Lg) : Except String Lg :=
  if st.level ≤ DEBUG then log t DEBUG msg args excInfo st else .ok st

/-- Python `Logger.info` (lines 174-176). -/
def info (t : Int) (msg : String) (args : List String) (excInfo : Option String)
    (st : Lg) : Except String Lg :=
  if st.level ≤ INFO then log t INFO msg args excInfo st else .ok st

/-- Python `Logger.warning` (lines 178-180). -/
def warning (t : Int) (msg : String) (args : List String) (excInfo : Option String)
    (st : Lg) : Except String Lg :=
  if st.level ≤ WARNING then log t WARNING msg args excInfo st else .ok st

/-- Python `Logger.error` (lines 182-184). -/
def error (t : Int) (msg : String) (args : List String) (excInfo : Option String)
    (st : Lg) : Except String Lg :=
  if st.level ≤ ERROR then log t ERROR msg args excInfo st else .ok st

/-- Python `Logger.fatal` (lines 186-188). -/
def fatal (t : Int) (msg : String) (args : List String) (excInfo : Option String)
    (st : Lg) : Except String Lg :=
  if st.level ≤ FATAL then log t FATAL msg args excInfo st else .ok st

/-- Python `Logger.critical` (lines 190-192). -/
def critical (t : Int) (msg : String) (args : List String) (excInfo : Option String)
    (st : Lg) : Except String Lg :=
  if st.level ≤ FATAL then log t FATAL msg args excInfo st else .ok st

/-- Python `Logger.exception` (lines 194-197): the current traceback `tb` (a model
parameter for `traceback.format_exc()`) is attached as `exc_info`, overriding
any passed value. -/
def exception (t : Int) (msg : String) (args : List String) (tb : String)
    (st : Lg) : Except String Lg :=
  if st.level ≤ EXCEPTION then log t EXCEPTION msg args (some tb) st else .ok st

/-- Tail of `Logger.stop` (lines 205-209): optionally discard the queue, then
append the `None` sentinel, set the wake signal and mark the logger stopped. -/
def stopFinish (now : Bool) (st : Lg) : Lg :=
  let st := if now then { st with queue := [] } else st
  { st with queue := st.queue ++ [none], evtQueue := true, stopped := true }

/-- Python `Logger.stop` (lines 199-209): if a coalescing timer is armed, cancel and
join it, clear it and force-flush the stored last message (unpacking a `None`
stored entry would be a Python `TypeError`), then finish via `stopFinish`. -/
def stop (now : Bool) (st : Lg) : Except String Lg :=
  match st.thrTimer with
  | none => .ok (stopFinish now st)
  | some _ =>
    let st := { st with thrTimer := none }
    match st.lastMsg.entry with
    | none => .error "TypeError"
    | some e => .ok (stopFinish now (logMessage st.lastMsg.key e st.lastMsg.cnt st))

/-- The process-wide registry `domains`: an association list from domain name
to the registered logger (`None` is the placeholder `LogInit` writes). -/
abbrev Reg := List (String × Option Lg)

/-- Python `domain in domains`. -/
def regHas (reg : Reg) (d : String) : Bool := reg.any (fun p => p.1 = d)

/-- Python `domains[domain]` (`none` when the key is absent). -/
def regGet (reg : Reg) (d : String) : Option (Option Lg) :=
  (reg.find? (fun p => p.1 = d)).map (fun p => p.2)

/-- Remove the entry for `d` (the key is assumed unique, as in a dict). -/
def regErase (reg : Reg) (d : String) : Reg := reg.eraseP (fun p => p.1 = d)

/-- Python `domains[domain] = v`: replace in place or append. -/
def regSet (reg : Reg) (d : String) (v : Option Lg) : Reg :=
  if regHas reg d then reg.map (fun p => if p.1 = d then (d, v) else p)
  else reg ++ [(d, v)]

/-- Python `del domains[domain]`: a `KeyError` when the key is absent. -/
def regDelE (reg : Reg) (d : String) : Except String Reg :=
  if regHas reg d then .ok (regErase reg d) else .error "KeyError"

/-- Python `Logger.join` (lines 211-219): join the writer thread if one exists (the
thread then has consumed the queue up to the sentinel), then delete the domain
from the registry — a `KeyError` when it is already gone.  The console-sink
teardown on the last domain (lines 216-219) belongs to the excluded console
collaborator. -/
def join (st : Lg) (reg : Reg) : Except String (Lg × Reg) :=
  let st := if st.hasThrLogger then { runThread st with hasThrLogger := false } else st
  if regHas reg st.domain then .ok (st, regErase reg st.domain)
  else .error "KeyError"

/-- Python `Logger.shutdown` (lines 221-223): `stop(now)` then `join()`. -/
def shutdown (now : Bool) (st : Lg) (reg : Reg) : Except String (Lg × Reg) :=
  match stop now st with
  | .error msg => .error msg
  | .ok st => join st reg

/-- The construction-failure test of `Logger.__init__` (line 94):
`(maxSize < 0) or (backupCnt < 0) or ((maxSize > 0) and (backupCnt == 0))`. -/
def initInvalid (maxSize backupCnt : Int) : Bool :=
  (maxSize < 0) || (backupCnt < 0) || ((maxSize > 0) && (backupCnt == 0))

/-- The construction-failure condition as the claim (and spec §7) state it:
zero `maxSize` with nonzero `backupCount`, or a negative value for either.
Kept separate from `initInvalid` for the refinement comparison. -/
def claimedInitInvalid (maxSize backupCnt : Int) : Bool :=
  (maxSize < 0) || (backupCnt < 0) || ((maxSize == 0) && !(backupCnt == 0))

/-- Whether an `Except` result is a success. -/
def isOkE {α : Type} : Except String α → Bool
  | .ok _ => true
  | .error _ => false

/-- The error message of an `Except` result, if any. -/
def errOfE {α : Type} : Except String α → Option String
  | .ok _ => none
  | .error e => some e

/-- Split a path at `/` separators (accumulator holds the current segment in
reverse). -/
def splitPathGo : List Char → List Char → List String
  | [], acc => [String.mk acc.reverse]
  | c :: rest, acc =>
    if c = '/' then String.mk acc.reverse :: splitPathGo rest []
    else splitPathGo rest (c :: acc)

/-- The `/`-separated segments of a path. -/
def splitPath (p : String) : List String := splitPathGo p.toList []

/-- Rebuild a path from its segments. -/
def joinPath : List String → String
  | [] => ""
  | [s] => s
  | s :: rest => s ++ "/" ++ joinPath rest

/-- Model of `os.path.dirname`: everything before the last separator. -/
def dirName (p : String) : String :=
  joinPath (splitPath p).dropLast

/-- Modelled from the spec: resolution of a path to its absolute/physical form
(spec §3 keys the shared-file invariant on the "resolved absolute path"; the
source has no resolution step).  Modelled as normalization dropping `.`
segments, enough to give two spellings of one physical path. -/
def resolvePath (p : String) : String :=
  joinPath ((splitPath p).filter (fun s => s ≠ "."))

/-- Python `Logger.__init__` (lines 92-123) as far as the claims reach: validate the
rotation limits, then — when a path is given and its directory exists — either
adopt the queue and signals of an already-registered logger with the *same
path string* (lines 111-116; the new logger then opens no file of its own) or
open the file and, in background mode, start the writer thread
(lines 118-123).  The registry holds no `None` values at construction time in
the `LogInit`/`GetLogger` flow, so the iteration over `domains.values()` is
modelled over the present loggers.  `self.pos = self.F.tell()` is modelled as
starting from 0 (fresh or empty append target); the console/network setup
(lines 124-135) belongs to the excluded collaborators. -/
def mkLogger (domain : String) (level : Int) (pathName : Option String)
    (maxSize backupCnt : Int) (useThreads : Bool)
    (dirExists : String → Bool) (reg : Reg) : Except String Lg :=
  if initInvalid maxSize backupCnt then .error "ValueError: Invalid maxSize or backupCnt"
  else
    let base : Lg := { domain := domain, level := level, pathName := pathName,
                       maxSize := maxSize, backupCnt := backupCnt, useThreads := useThreads }
    .ok (match pathName with
      | some p =>
        if dirExists (dirName p) then
          if (reg.filterMap (fun q => q.2)).any (fun l => l.pathName = some p) then
            base
          else { base with fOpen := true, hasThrLogger := useThreads }
        else base
      | none => base)

/-- Python `GetLogger` (lines 384-397): require a nonempty registry; for an existing
domain, stop and join the previous logger (when it is not the `None`
placeholder) and delete the registry entry; then construct and register the
replacement.  Note that `join` itself already deletes the domain, so the
subsequent `del domains[domain]` is modelled by `regDelE` on the registry that
`join` returned. -/
def GetLogger (domain : String) (level : Int) (pathName : Option String)
    (maxSize backupCnt : Int) (useThreads : Bool)
    (dirExists : String → Bool) (reg : Reg) : Except String (Lg × Reg) :=
  if reg.isEmpty then .error "ValueError: Call LogInit first"
  else do
    let reg ←
      match regGet reg domain with
      | some (some prev) => do
        let prev ← stop false prev
        let res ← join prev reg
        regDelE res.2 domain
      | some none => regDelE reg domain
      | none => .ok reg
    let lg ← mkLogger domain level pathName maxSize backupCnt useThreads dirExists reg
    .ok (lg, regSet reg domain (some lg))

/-- Python `LogInit` (lines 400-413): set the process-wide class attributes (modelled
by the `useThreads` argument; colors, compression and encoding are outside the
claims), write the `None` placeholder for the domain — overwriting any
existing registration — and delegate to `GetLogger`. -/
def LogInit (domain : String) (level : Int) (pathName : Option String)
    (maxSize backupCnt : Int) (useThreads : Bool)
    (dirExists : String → Bool) (reg : Reg) : Except String (Lg × Reg) :=
  GetLogger domain level pathName maxSize backupCnt useThreads dirExists
    (regSet reg domain none)

/-- Number of loggers registered in `reg` that hold an open file handle on the
physical (resolved) path `rp`. -/
def openHandles (reg : Reg) (rp : String) : Nat :=
  ((reg.filterMap (fun q => q.2)).filter
    (fun l => l.fOpen && (l.pathName.map resolvePath = some rp))).length

/-- The static data of `Logger.__rotate`'s backup shifting (lines 230-243):
the log file name, the compression extension (`""` with `Logger.compress is
None`) and the backup count. -/
structure RotCfg where
  logFileName : String
  zExt : String := ""
  backupCnt : Nat
deriving Repr, DecidableEq

/-- The backup file name `"%s.%d%s" % (logFileName, n, zExt)`. -/
def backupName (cfg : RotCfg) (n : Nat) : String :=
  cfg.logFileName ++ "." ++ toString n ++ cfg.zExt

/-- Python `range(backupCnt, 1, -1)`: the slots `backupCnt, backupCnt-1, …, 2`. -/
def shiftCnts (backupCnt : Nat) : List Nat :=
  (List.range' 2 (backupCnt - 1)).reverse

/-- The cascading backup shift (lines 235-243): one `try` wraps the whole
`for` loop, so the first failing `os.replace` abandons every remaining
iteration and the `except: pass` swallows the error.  `snapshot` is the
directory listing taken at line 234, `fails cnt` injects a failure of the
rename into slot `cnt`.  Returns the renames actually performed (as
`(cnt-1, cnt)` slot pairs) and whether an exception was raised (and then
swallowed). -/
def shiftBackups (cfg : RotCfg) (snapshot : List String) (fails : Nat → Bool) :
    List Nat → List (Nat × Nat) × Bool
  | [] => ([], false)
  | cnt :: rest =>
    if snapshot.contains (backupName cfg (cnt - 1)) then
      if fails cnt then ([], true)
      else
        let r := shiftBackups cfg snapshot fails rest
        ((cnt - 1, cnt) :: r.1, r.2)
    else shiftBackups cfg snapshot fails rest

/-- The cascading shift as the claim states it: a failing rename step is
skipped for that slot only and the loop proceeds with the remaining slots.
Kept separate from `shiftBackups` for the refinement comparison. -/
def shiftBackupsPerSlot (cfg : RotCfg) (snapshot : List String) (fails : Nat → Bool) :
    List Nat → List (Nat × Nat)
  | [] => []
  | cnt :: rest =>
    if snapshot.contains (backupName cfg (cnt - 1)) then
      if fails cnt then shiftBackupsPerSlot cfg snapshot fails rest
      else (cnt - 1, cnt) :: shiftBackupsPerSlot cfg snapshot fails rest
    else shiftBackupsPerSlot cfg snapshot fails rest

/-- Outcome of the filesystem part of `Logger.__rotate` (lines 230-251): the
performed backup renames, the destination of the just-closed active file
(line 244-246, no compressor), and that the active file is reopened
(line 251) — the code after the `try`/`except` runs whether or not the shift
raised. -/
structure RotResult where
  shifted : List (Nat × Nat)
  shiftRaised : Bool
  activeMovedTo : String
  reopened : Bool
deriving Repr, DecidableEq

/-- The filesystem steps of `Logger.__rotate` after the file is closed. -/
def rotateFS (cfg : RotCfg) (snapshot : List String) (fails : Nat → Bool) : RotResult :=
  let r := shiftBackups cfg snapshot fails (shiftCnts cfg.backupCnt)
  { shifted := r.1, shiftRaised := r.2,
    activeMovedTo := backupName cfg 1, reopened := true }

/-- Fixture: a coalescing entry with timestamp `i` (identical key `"dup"`). -/
def c4e (i : Int) : Entry :=
  { logTime := i, domain := "app", level := INFO, msg := "dup" }

/-- Fixture: a synchronous logger with `sameMsgCountMax = 3` and no file. -/
def c4state : Lg := { domain := "app", level := 0, sameMsgCountMax := 3 }

/-- Fixture: three identical-key entries fed through `__logEntry`, reaching the
Pending state with `repeatCount = 3`, stored entry `c4e 3` and the timer armed
with `(key, c4e 2, 0)`. -/
def c4pending : Lg :=
  ((((logEntry (c4e 1) c4state).bind (logEntry (c4e 2))).bind
    (logEntry (c4e 3))).toOption).getD c4state

/-- Fixture: the deferred-flush timer fires in the Pending state above. -/
def c4fired : Lg := timerFire c4pending

/-- Fixture: rotation configuration with three backup slots. -/
def c5cfg : RotCfg := { logFileName := "app.log", backupCnt := 3 }

/-- Fixture: directory listing holding the active file and backups 1 and 2. -/
def c5snap : List String := ["app.log", "app.log.1", "app.log.2"]

/-- Fixture: the rename into backup slot 3 fails. -/
def c5fails (c : Nat) : Bool := c == 3

/-- Fixture: a logger that owns the open file `d/log.txt`. -/
def c6prev : Lg :=
  { domain := "a", level := 0, pathName := some "d/log.txt", fOpen := true }

/-- Fixture: registry holding `c6prev` under domain `a`. -/
def c6reg : Reg := [("a", some c6prev)]

/-- Fixture: a previously registered synchronous logger for domain `app`. -/
def c3prev : Lg := { domain := "app", level := 0 }

/-- Fixture: registry holding `c3prev` under domain `app`. -/
def c3reg : Reg := [("app", some c3prev)]

/-- Fixture: a gate-test logger whose threshold is above every level. -/
def c7state : Lg := { domain := "app", level := NOLOG }

/-- Fixture: a synchronous logger with rotation configured (`maxSize = 1000`),
so written lines accumulate in the in-memory buffer. -/
def c2sync : Lg :=
  { domain := "app", level := DEBUG, fOpen := true, maxSize := 1000, backupCnt := 1 }

/-- Fixture: `c2sync` after one `log` call; the line sits in the buffer. -/
def c2syncLogged : Lg :=
  ((log 5 INFO "hello" [] none c2sync).toOption).getD c2sync

/-- Fixture: an asynchronous logger owning the file, with one queued entry. -/
def c2async : Lg :=
  { domain := "app", level := DEBUG, useThreads := true, hasThrLogger := true,
    fOpen := true, queue := [some (Entry.mk 7 "app" INFO "queued" none)] }

/-- Fixture: a default logger for the stop/shutdown idempotence witness. -/
def c8state : Lg := { domain := "app", level := DEBUG, fOpen := true }

/-- Fixture: a synchronous logger whose threshold is above every level, for
the ungated `log` witness. -/
def c9state : Lg := { domain := "app", level := NOLOG }

/-- Python `__writePending` leaves every logger field other than the buffer, its byte
count and the file data untouched. -/
theorem writePending_frame (st : Lg) :
    (writePending st).domain = st.domain ∧
    (writePending st).stopped = st.stopped ∧
    (writePending st).useThreads = st.useThreads ∧
    (writePending st).hasThrLogger = st.hasThrLogger ∧
    (writePending st).sameMsgCountMax = st.sameMsgCountMax ∧
    (writePending st).lastMsg = st.lastMsg ∧
    (writePending st).thrTimer = st.thrTimer ∧
    (writePending st).queue = st.queue ∧
    (writePending st).maxSize = st.maxSize ∧
    (writePending st).fOpen = st.fOpen ∧
    (writePending st).closes = st.closes ∧
    (writePending st).doubleClose = st.doubleClose ∧
    (writePending st).emits = st.emits := by
  unfold writePending
  split <;> simp

/-- After `__writePending` the buffer is empty. -/
theorem writePending_buf (st : Lg) : (writePending st).buf = [] := by
  unfold writePending
  split
  · next h => simpa using h
  · rfl

/-- Python `__writePending` moves the buffered lines wholesale onto the file data. -/
theorem writePending_fileData (st : Lg) :
    (writePending st).fileData = st.fileData ++ st.buf := by
  unfold writePending
  split
  · next h => simp [List.isEmpty_iff.mp h]
  · rfl

/-- Closing an open handle. -/
theorem closeF_open (st : Lg) (h : st.fOpen = true) :
    closeF st = { st with fOpen := false, closes := st.closes + 1 } := by
  unfold closeF
  rw [if_pos h]

/-- Python `__rotate` on an open file keeps the logger identity fields, never
double-closes, and leaves the handle reopened. -/
theorem rotateFile_frame (st : Lg) (h : st.fOpen = true) :
    (rotateFile st).domain = st.domain ∧
    (rotateFile st).stopped = st.stopped ∧
    (rotateFile st).useThreads = st.useThreads ∧
    (rotateFile st).hasThrLogger = st.hasThrLogger ∧
    (rotateFile st).sameMsgCountMax = st.sameMsgCountMax ∧
    (rotateFile st).lastMsg = st.lastMsg ∧
    (rotateFile st).thrTimer = st.thrTimer ∧
    (rotateFile st).queue = st.queue ∧
    (rotateFile st).maxSize = st.maxSize ∧
    (rotateFile st).doubleClose = st.doubleClose ∧
    (rotateFile st).emits = st.emits ∧
    (rotateFile st).fOpen = true := by
  unfold rotateFile closeF writePending
  split <;> simp [h]

/-- Python `_logMessage` touches only the last-message slot, the ghost trace, the
buffer/position/file fields and the rotate signal; in particular it preserves
the queue, the timer, the mode flags and the double-close flag, and appends
exactly its call record to the trace. -/
theorem logMessage_frame (key : Option String) (e : Entry) (cnt : Nat) (st : Lg) :
    (logMessage key e cnt st).domain = st.domain ∧
    (logMessage key e cnt st).stopped = st.stopped ∧
    (logMessage key e cnt st).useThreads = st.useThreads ∧
    (logMessage key e cnt st).hasThrLogger = st.hasThrLogger ∧
    (logMessage key e cnt st).sameMsgCountMax = st.sameMsgCountMax ∧
    (logMessage key e cnt st).thrTimer = st.thrTimer ∧
    (logMessage key e cnt st).queue = st.queue ∧
    (logMessage key e cnt st).maxSize = st.maxSize ∧
    (logMessage key e cnt st).doubleClose = st.doubleClose ∧
    (logMessage key e cnt st).emits = st.emits ++ [Emitted.mk key cnt e] := by
  unfold logMessage rotateFile closeF writePending
  cases key <;> dsimp only <;> (repeat' split) <;> simp_all

/-- In background mode with no rotation configured, `_logMessage` on an open
file keeps the handle open, closes nothing, and appends exactly the rendered
line to the content written-or-buffered so far. -/
theorem logMessage_async (e : Entry) (st : Lg)
    (hopen : st.fOpen = true) (hms : st.maxSize = 0) (hut : st.useThreads = true) :
    (logMessage none e 0 st).fOpen = true ∧
    (logMessage none e 0 st).closes = st.closes ∧
    (logMessage none e 0 st).fileData ++ (logMessage none e 0 st).buf =
      st.fileData ++ st.buf ++ [fmtLine none 0 e ++ "\n"] := by
  unfold logMessage writePending
  dsimp only
  (repeat' split) <;> simp_all [List.append_assoc]

/-- Any successful `__logEntry` transition preserves the logger identity and
mode fields, the queue and the double-close flag. -/
theorem logEntry_ok_frame (e : Entry) (st st' : Lg) (h : logEntry e st = .ok st') :
    st'.domain = st.domain ∧
    st'.useThreads = st.useThreads ∧
    st'.hasThrLogger = st.hasThrLogger ∧
    st'.sameMsgCountMax = st.sameMsgCountMax ∧
    st'.maxSize = st.maxSize ∧
    st'.queue = st.queue ∧
    st'.doubleClose = st.doubleClose := by
  unfold logEntry at h
  dsimp only at h
  split at h
  · split at h
    · injection h with h
      subst h
      simp
    · injection h with h
      subst h
      simp
  · split at h
    · injection h with h
      subst h
      obtain ⟨h1, _, h3, h4, h5, _, h7, h8, h9, _⟩ := logMessage_frame (some e.msg) e 0 st
      exact ⟨h1, h3, h4, h5, h8, h7, h9⟩
    · split at h
      · cases h
      · next le hle =>
        injection h with h
        subst h
        obtain ⟨a1, _, a3, a4, a5, _, a7, a8, a9, _⟩ :=
          logMessage_frame (some e.msg) le st.lastMsg.cnt { st with thrTimer := none }
        obtain ⟨b1, _, b3, b4, b5, _, b7, b8, b9, _⟩ :=
          logMessage_frame (some e.msg) e 0
            (logMessage (some e.msg) le st.lastMsg.cnt { st with thrTimer := none })
        exact ⟨b1.trans a1, b3.trans a3, b4.trans a4, b5.trans a5, b8.trans a8,
               b7.trans a7, b9.trans a9⟩

/-- With coalescing disabled, the writer-loop body is a plain `_logMessage`. -/
theorem threadHandle_nocoalesce (e : Entry) (st : Lg) (h : st.sameMsgCountMax = 0) :
    threadHandle e st = logMessage none e 0 st := by
  unfold threadHandle
  rw [if_neg (by simp [h])]

/-- The writer-loop body preserves the logger identity and mode fields and the
double-close flag (exceptions are caught and reported, lines 377-381). -/
theorem threadHandle_frame (e : Entry) (st : Lg) :
    (threadHandle e st).domain = st.domain ∧
    (threadHandle e st).useThreads = st.useThreads ∧
    (threadHandle e st).hasThrLogger = st.hasThrLogger ∧
    (threadHandle e st).sameMsgCountMax = st.sameMsgCountMax ∧
    (threadHandle e st).maxSize = st.maxSize ∧
    (threadHandle e st).doubleClose = st.doubleClose := by
  unfold threadHandle
  split
  · split
    · next st' heq =>
      obtain ⟨h1, h2, h3, h4, h5, _, h7⟩ := logEntry_ok_frame e st st' heq
      exact ⟨h1, h2, h3, h4, h5, h7⟩
    · exact ⟨rfl, rfl, rfl, rfl, rfl, rfl⟩
  · obtain ⟨h1, _, h3, h4, h5, _, _, h8, h9, _⟩ := logMessage_frame none e 0 st
    exact ⟨h1, h3, h4, h5, h8, h9⟩

/-- The writer loop preserves the domain and never double-closes: the close at
the sentinel happens only while the handle is open. -/
theorem logThreadGo_frame (q : List (Option Entry)) (st : Lg) :
    (logThreadGo q st).domain = st.domain ∧
    (logThreadGo q st).doubleClose = st.doubleClose := by
  induction q generalizing st with
  | nil => exact ⟨rfl, rfl⟩
  | cons x rest ih =>
    cases x with
    | none =>
      dsimp only [logThreadGo]
      split
      · next hopen =>
        obtain ⟨w1, _, _, _, _, _, _, _, _, wfo, _, wdc, _⟩ := writePending_frame st
        rw [closeF_open (writePending st) (wfo.trans hopen)]
        exact ⟨w1, wdc⟩
      · exact ⟨rfl, rfl⟩
    | some e =>
      dsimp only [logThreadGo]
      obtain ⟨t1, _, _, _, _, t6⟩ := threadHandle_frame e st
      obtain ⟨i1, i2⟩ := ih (threadHandle e st)
      exact ⟨i1.trans t1, i2.trans t6⟩

/-- The tail of `stop` changes only the queue, the wake signal and the
stopped flag. -/
theorem stopFinish_frame (now : Bool) (st : Lg) :
    (stopFinish now st).domain = st.domain ∧
    (stopFinish now st).thrTimer = st.thrTimer ∧
    (stopFinish now st).lastMsg = st.lastMsg ∧
    (stopFinish now st).hasThrLogger = st.hasThrLogger ∧
    (stopFinish now st).useThreads = st.useThreads ∧
    (stopFinish now st).sameMsgCountMax = st.sameMsgCountMax ∧
    (stopFinish now st).maxSize = st.maxSize ∧
    (stopFinish now st).fOpen = st.fOpen ∧
    (stopFinish now st).buf = st.buf ∧
    (stopFinish now st).fileData = st.fileData ∧
    (stopFinish now st).closes = st.closes ∧
    (stopFinish now st).doubleClose = st.doubleClose := by
  unfold stopFinish
  split <;> simp

/-- Python `stop` with no armed timer takes the short path. -/
theorem stop_noTimer (now : Bool) (st : Lg) (h : st.thrTimer = none) :
    stop now st = .ok (stopFinish now st) := by
  unfold stop
  rw [h]

/-- Python `stop` always succeeds on a state satisfying the timer invariant (an armed
timer implies a stored entry — true of every reachable state), and the result
has no armed timer, preserving the identity fields and the double-close
flag. -/
theorem stop_ok (now : Bool) (st : Lg)
    (hinv : st.thrTimer.isSome = true → st.lastMsg.entry.isSome = true) :
    ∃ st₁, stop now st = .ok st₁ ∧ st₁.thrTimer = none ∧
      st₁.domain = st.domain ∧ st₁.doubleClose = st.doubleClose ∧
      st₁.useThreads = st.useThreads ∧ st₁.hasThrLogger = st.hasThrLogger ∧
      st₁.sameMsgCountMax = st.sameMsgCountMax ∧ st₁.maxSize = st.maxSize := by
  unfold stop
  dsimp only
  split
  · next htimer =>
    obtain ⟨s1, s2, _, s4, s5, s6, s7, _, _, _, _, s12⟩ := stopFinish_frame now st
    exact ⟨_, rfl, s2.trans htimer, s1, s12, s5, s4, s6, s7⟩
  · next t htimer =>
    split
    · next hent =>
      have h2 := hinv (by rw [htimer]; rfl)
      rw [hent] at h2
      simp at h2
    · next e hent =>
      obtain ⟨s1, s2, _, s4, s5, s6, s7, _, _, _, _, s12⟩ :=
        stopFinish_frame now
          (logMessage st.lastMsg.key e st.lastMsg.cnt { st with thrTimer := none })
      obtain ⟨m1, _, m3, m4, m5, m6, _, m8, m9, _⟩ :=
        logMessage_frame st.lastMsg.key e st.lastMsg.cnt { st with thrTimer := none }
      exact ⟨_, rfl, s2.trans m6, s1.trans m1, s12.trans m9, s5.trans m3,
             s4.trans m4, s6.trans m5, s7.trans m8⟩

/-- One step of the writer loop: a normal entry is handled and consumed. -/
theorem logThreadGo_entry (e : Entry) (rest : List (Option Entry)) (st : Lg) :
    logThreadGo (some e :: rest) st = logThreadGo rest (threadHandle e st) := rfl

/-- One step of the writer loop at the sentinel with an open file: flush,
close, terminate. -/
theorem logThreadGo_sentinel (rest : List (Option Entry)) (st : Lg) (h : st.fOpen = true) :
    logThreadGo (none :: rest) st =
      { writePending st with
          fOpen := false
          closes := (writePending st).closes + 1
          queue := rest } := by
  have h0 : logThreadGo (none :: rest) st =
      { (if st.fOpen then closeF (writePending st) else st) with queue := rest } := rfl
  rw [h0, if_pos h,
    closeF_open (writePending st) ((writePending_frame st).2.2.2.2.2.2.2.2.2.1.trans h)]

/-- Draining the queue up to the sentinel in background mode (no rotation
configured, coalescing disabled): every queued entry is emitted in order, the
buffer is flushed, the file is closed exactly once, and the loop ends with an
empty queue. -/
theorem logThreadGo_drain (q : List (Option Entry)) :
    ∀ st : Lg, (∀ x ∈ q, x ≠ none) → st.fOpen = true → st.maxSize = 0 →
      st.useThreads = true → st.sameMsgCountMax = 0 →
      (logThreadGo (q ++ [none]) st).domain = st.domain ∧
      (logThreadGo (q ++ [none]) st).fOpen = false ∧
      (logThreadGo (q ++ [none]) st).closes = st.closes + 1 ∧
      (logThreadGo (q ++ [none]) st).buf = [] ∧
      (logThreadGo (q ++ [none]) st).queue = [] ∧
      (logThreadGo (q ++ [none]) st).doubleClose = st.doubleClose ∧
      (logThreadGo (q ++ [none]) st).fileData = st.fileData ++ st.buf ++
        ((q.filterMap id).map fun e => fmtLine none 0 e ++ "\n") := by
  induction q with
  | nil =>
    intro st _ hopen _ _ _
    rw [List.nil_append, logThreadGo_sentinel [] st hopen]
    obtain ⟨w1, _, _, _, _, _, _, _, _, _, w11, w12, _⟩ := writePending_frame st
    refine ⟨w1, rfl, congrArg (· + 1) w11, writePending_buf st, rfl, w12, ?_⟩
    show (writePending st).fileData = _
    rw [writePending_fileData st]
    simp
  | cons x rest ih =>
    intro st hq hopen hms hut hsm
    cases x with
    | none => exact absurd rfl (hq none (List.mem_cons_self _ _))
    | some e =>
      have hq' : ∀ y ∈ rest, y ≠ none := fun y hy => hq y (List.mem_cons_of_mem _ hy)
      rw [List.cons_append, logThreadGo_entry e (rest ++ [none]) st,
        threadHandle_nocoalesce e st hsm]
      obtain ⟨f1, _, f3, _, f5, _, _, f8, f9, _⟩ := logMessage_frame none e 0 st
      obtain ⟨a1, a2, a3⟩ := logMessage_async e st hopen hms hut
      obtain ⟨i1, i2, i3, i4, i5, i6, i7⟩ :=
        ih (logMessage none e 0 st) hq' a1 (f8.trans hms) (f3.trans hut) (f5.trans hsm)
      refine ⟨i1.trans f1, i2, i3.trans (congrArg (· + 1) a2), i4, i5, i6.trans f9, ?_⟩
      refine i7.trans ?_
      rw [a3]
      simp [List.filterMap_cons, List.append_assoc]

/-- Python `shutdown` after a successful `stop` is exactly `join`. -/
theorem shutdown_of_stop (now : Bool) (st st₁ : Lg) (reg : Reg)
    (h : stop now st = .ok st₁) :
    shutdown now st reg = join st₁ reg := by
  unfold shutdown
  rw [h]

/-- Python `join` on a logger without a writer thread only unregisters the domain. -/
theorem join_noThread (st : Lg) (reg : Reg) (hthr : st.hasThrLogger = false)
    (hreg : regHas reg st.domain = true) :
    join st reg = .ok (st, regErase reg st.domain) := by
  have h1 : join st reg =
      (if regHas reg st.domain then .ok (st, regErase reg st.domain)
       else .error "KeyError") := by
    unfold join
    rw [if_neg (show ¬(st.hasThrLogger = true) by simp [hthr])]
  rw [h1, if_pos hreg]

/-- Python `join` on a logger with a running writer thread: the thread is joined (the
queue is drained) and the domain is removed from the registry. -/
theorem join_run (st : Lg) (reg : Reg) (hthr : st.hasThrLogger = true)
    (hreg : regHas reg ((runThread st).domain) = true) :
    join st reg = .ok ({ runThread st with hasThrLogger := false },
      regErase reg ((runThread st).domain)) := by
  unfold join
  rw [if_pos hthr]
  dsimp only
  rw [if_pos hreg]

/-- The test at line 94 of `Logger.__init__`, as a proposition: construction
raises exactly for a negative bound or a positive `maxSize` with zero
`backupCnt`. -/
theorem initInvalid_iff (maxSize backupCnt : Int) :
    initInvalid maxSize backupCnt = true ↔
      (maxSize < 0 ∨ backupCnt < 0 ∨ (0 < maxSize ∧ backupCnt = 0)) := by
  simp only [initInvalid, Bool.or_eq_true, Bool.and_eq_true, decide_eq_true_eq, beq_iff_eq]
  omega

/-- C1 counterexample: the claim has the degenerate combination backwards.
With `maxSize = 0, backupCnt = 1` the claim predicts a construction error but
`Logger.__init__` succeeds; with `maxSize = 1, backupCnt = 0` the claim
predicts success but construction raises `ValueError`. -/
theorem c1_counterexample :
    claimedInitInvalid 0 1 = true ∧
    isOkE (mkLogger "app" 0 none 0 1 false (fun _ => false) []) = true ∧
    claimedInitInvalid 1 0 = false ∧
    isOkE (mkLogger "app" 0 none 1 0 false (fun _ => false) []) = false := by
  decide

/-- C1 (amended): Logger construction fails with `ValueError` exactly when
`maxSize` or `backupCnt` is negative, or `maxSize` is positive while
`backupCnt` is zero (rotation configured without backup slots); every other
combination constructs without a configuration error. -/
theorem c1_amended (domain : String) (level : Int) (pathName : Option String)
    (maxSize backupCnt : Int) (useThreads : Bool) (dirExists : String → Bool)
    (reg : Reg) :
    isOkE (mkLogger domain level pathName maxSize backupCnt useThreads dirExists reg)
      = true ↔
      ¬(maxSize < 0 ∨ backupCnt < 0 ∨ (0 < maxSize ∧ backupCnt = 0)) := by
  rw [← initInvalid_iff]
  unfold mkLogger
  by_cases h : initInvalid maxSize backupCnt = true
  · simp [h, isOkE]
  · simp [h, isOkE]

/-- C4 counterexample: after three identical-key entries with
`sameMsgCountMax = 3` the logger is Pending with `repeatCount = 3` and most
recently stored entry `c4e 3`, but the timer was armed with `(key, c4e 2, 0)`;
when it fires, the flushed line is `c4e 2` — the entry captured at arm time,
not the most recently stored one — emitted with count 0, so its rendered line
is the plain formatted entry without any "3 times:" prefix, contrary to the
claim. -/
theorem c4_counterexample :
    c4pending.lastMsg.cnt = 3 ∧
    c4pending.lastMsg.entry = some (c4e 3) ∧
    c4pending.thrTimer = some (TimerState.mk "dup" (c4e 2) true) ∧
    c4fired.emits =
      [Emitted.mk (some "dup") 0 (c4e 1), Emitted.mk (some "dup") 0 (c4e 2)] ∧
    fmtLine (some "dup") 0 (c4e 2) = formatEntry (c4e 2) ∧
    (formatEntry (c4e 2)).toList.take 9 ≠ "3 times: ".toList := by
  decide

/-- C4 (amended): when the deferred-flush timer fires in the Pending state,
the flushed line is the entry that was stored when the timer was armed, passed
with repeat count 0, so it carries no "N times:" prefix; the accumulated
`repeatCount` is not consulted by the timer path. -/
theorem c4_amended (st : Lg) (k : String) (e : Entry)
    (h : st.thrTimer = some (TimerState.mk k e true)) :
    (timerFire st).emits = st.emits ++ [Emitted.mk (some k) 0 e] ∧
    fmtLine (some k) 0 e = formatEntry e ∧
    (timerFire st).thrTimer = some (TimerState.mk k e false) := by
  unfold timerFire
  rw [h]
  dsimp only
  refine ⟨?_, ?_, rfl⟩
  · exact (logMessage_frame (some k) e 0 st).2.2.2.2.2.2.2.2.2
  · simp [fmtLine]

/-- Witness for `c4_amended` at the Pending fixture. -/
theorem c4_amended_witness :
    c4pending.thrTimer = some (TimerState.mk "dup" (c4e 2) true) ∧
    ((timerFire c4pending).emits = c4pending.emits ++ [Emitted.mk (some "dup") 0 (c4e 2)] ∧
     fmtLine (some "dup") 0 (c4e 2) = formatEntry (c4e 2) ∧
     (timerFire c4pending).thrTimer = some (TimerState.mk "dup" (c4e 2) false)) :=
  ⟨by decide, c4_amended c4pending "dup" (c4e 2) (by decide)⟩

/-- C9: the generic `log` operation applies no level gate: on a non-stopped
logger, an entry whose level lies strictly below the configured threshold is
still enqueued (background mode with an own writer thread) or processed inline
(through the coalescing machine when enabled, else directly emitted). -/
theorem c9_no_level_gate (t level : Int) (msg : String) (args : List String)
    (excInfo : Option String) (st : Lg)
    (hstopped : st.stopped = false) (_hbelow : level < st.level) :
    (st.useThreads = true → st.hasThrLogger = true →
      log t level msg args excInfo st = .ok { st with
        queue := st.queue ++ [some (Entry.mk t st.domain level
          (if args.isEmpty then msg else pyMod msg args) excInfo)],
        evtQueue := true }) ∧
    ((st.useThreads = false ∨ st.hasThrLogger = false) → st.sameMsgCountMax = 0 →
      log t level msg args excInfo st = .ok (logMessage none
        (Entry.mk t st.domain level (if args.isEmpty then msg else pyMod msg args)
          excInfo) 0 st)) ∧
    ((st.useThreads = false ∨ st.hasThrLogger = false) → 0 < st.sameMsgCountMax →
      log t level msg args excInfo st = logEntry
        (Entry.mk t st.domain level (if args.isEmpty then msg else pyMod msg args)
          excInfo) st) := by
  unfold log
  rw [if_neg (by simp [hstopped])]
  dsimp only
  refine ⟨fun h1 h2 => ?_, fun hd h0 => ?_, fun hd hpos => ?_⟩
  · rw [if_neg (by simp [h1, h2])]
  · rw [if_pos hd, if_neg (by simp [h0])]
  · rw [if_pos hd, if_pos hpos]

/-- Witness for `c9_no_level_gate`: a `DEBUG` entry on a synchronous logger
with threshold `NOLOG` is processed despite being far below the threshold. -/
theorem c9_no_level_gate_witness :
    c9state.stopped = false ∧ DEBUG < c9state.level ∧
    log 0 DEBUG "m" [] none c9state =
      .ok (logMessage none (Entry.mk 0 "app" DEBUG "m" none) 0 c9state) :=
  ⟨rfl, by decide,
   (c9_no_level_gate 0 DEBUG "m" [] none c9state rfl (by decide)).2.1 (Or.inl rfl) rfl⟩

/-- C5 counterexample: with backups 1 and 2 present and the rename into slot 3
failing, the code performs no rename at all — the failure aborts the whole
remaining cascade (slot 2 included) because one `try` wraps the whole loop —
while the claim predicts that only slot 3 is skipped and the slot-2 rename
`name.1 -> name.2` still happens.  Rotation itself still proceeds. -/
theorem c5_counterexample :
    (rotateFS c5cfg c5snap c5fails).shifted = [] ∧
    (rotateFS c5cfg c5snap c5fails).shiftRaised = true ∧
    shiftBackupsPerSlot c5cfg c5snap c5fails (shiftCnts c5cfg.backupCnt) = [(1, 2)] ∧
    (rotateFS c5cfg c5snap c5fails).reopened = true := by
  decide

/-- C5 (amended): a failing backup rename step abandons the entire remaining
cascade (no further slot is shifted, the raised error is swallowed), and the
rotation nonetheless proceeds: the active file is still renamed to backup 1
and reopened — a shift failure is never fatal to the rotation. -/
theorem c5_amended (cfg : RotCfg) (snapshot : List String) (fails : Nat → Bool)
    (cnt : Nat) (rest : List Nat)
    (hpresent : snapshot.contains (backupName cfg (cnt - 1)) = true)
    (hfail : fails cnt = true) :
    shiftBackups cfg snapshot fails (cnt :: rest) = ([], true) ∧
    (rotateFS cfg snapshot fails).reopened = true ∧
    (rotateFS cfg snapshot fails).activeMovedTo = backupName cfg 1 := by
  refine ⟨?_, rfl, rfl⟩
  simp only [shiftBackups]
  rw [if_pos hpresent, if_pos hfail]

/-- Witness for `c5_amended` at the concrete fixture. -/
theorem c5_amended_witness :
    (c5snap.contains (backupName c5cfg 2) = true ∧ c5fails 3 = true) ∧
    (shiftBackups c5cfg c5snap c5fails (3 :: [2]) = ([], true) ∧
     (rotateFS c5cfg c5snap c5fails).reopened = true ∧
     (rotateFS c5cfg c5snap c5fails).activeMovedTo = backupName c5cfg 1) :=
  ⟨by decide, c5_amended c5cfg c5snap c5fails 3 [2] (by decide) (by decide)⟩

/-- C7: every per-level convenience operation whose level lies below the
logger's threshold is a no-op: the call returns successfully with the state
unchanged — nothing is formatted, buffered, enqueued or written. -/
theorem c7_level_gate (t : Int) (msg : String) (args : List String)
    (excInfo : Option String) (tb : String) (st : Lg) :
    (DEBUG < st.level → debug t msg args excInfo st = .ok st) ∧
    (INFO < st.level → info t msg args excInfo st = .ok st) ∧
    (WARNING < st.level → warning t msg args excInfo st = .ok st) ∧
    (ERROR < st.level → error t msg args excInfo st = .ok st) ∧
    (FATAL < st.level → fatal t msg args excInfo st = .ok st) ∧
    (EXCEPTION < st.level → exception t msg args tb st = .ok st) := by
  refine ⟨fun h => ?_, fun h => ?_, fun h => ?_, fun h => ?_, fun h => ?_, fun h => ?_⟩ <;>
    simp [debug, info, warning, error, fatal, exception, not_le.mpr h]

/-- Witness for `c7_level_gate`: with threshold `NOLOG` every convenience call
leaves the logger untouched. -/
theorem c7_level_gate_witness :
    debug 0 "m" [] none c7state = .ok c7state ∧
    info 0 "m" [] none c7state = .ok c7state ∧
    warning 0 "m" [] none c7state = .ok c7state ∧
    error 0 "m" [] none c7state = .ok c7state ∧
    fatal 0 "m" [] none c7state = .ok c7state ∧
    exception 0 "m" [] "tb" c7state = .ok c7state :=
  ⟨(c7_level_gate 0 "m" [] none "tb" c7state).1 (by decide),
   (c7_level_gate 0 "m" [] none "tb" c7state).2.1 (by decide),
   (c7_level_gate 0 "m" [] none "tb" c7state).2.2.1 (by decide),
   (c7_level_gate 0 "m" [] none "tb" c7state).2.2.2.1 (by decide),
   (c7_level_gate 0 "m" [] none "tb" c7state).2.2.2.2.1 (by decide),
   (c7_level_gate 0 "m" [] none "tb" c7state).2.2.2.2.2 (by decide)⟩

/-- C10: `Logger.critical` is behaviorally identical to `Logger.fatal`: both
are gated by `level <= FATAL` and both dispatch the entry at level `FATAL`. -/
theorem c10_critical_fatal (t : Int) (msg : String) (args : List String)
    (excInfo : Option String) (st : Lg) :
    critical t msg args excInfo st = fatal t msg args excInfo st ∧
    critical t msg args excInfo st =
      (if st.level ≤ FATAL then log t FATAL msg args excInfo st else .ok st) :=
  ⟨rfl, rfl⟩

/-- C2 counterexample: in synchronous mode a graceful shutdown does not flush
the in-memory buffer and does not close the owned file handle.  With rotation
configured (`maxSize = 1000`) one logged line sits in the buffer; after
`shutdown(now=False)` the domain is gone from the registry, but the file is
still open, nothing was written, no close happened, and the line is still
buffered — contrary to the claim that this holds "in both synchronous mode and
asynchronous mode". -/
theorem c2_counterexample :
    c2syncLogged.fOpen = true ∧ c2syncLogged.buf.length = 1 ∧
    ((shutdown false c2syncLogged [("app", none)]).toOption.map
      fun p => (p.1.fOpen, p.1.closes, p.1.buf.length, p.1.fileData, p.2.length)) =
      some (true, 0, 1, [], 0) := by
  decide

/-- C2 (amended): in asynchronous mode — background writer thread running on
the owned open file, no size-based rotation configured, coalescing disabled
and no pending coalescing timer — a graceful shutdown (`now = False`) drains
every pending queued entry to the file in order, flushes the in-memory buffer,
closes the owned file handle exactly once, and removes the domain from the
registry.  (In synchronous mode, by `c2_counterexample`, only the registry
removal happens: the buffer is not flushed and the file is not closed.) -/
theorem c2_amended (st : Lg) (reg : Reg)
    (hut : st.useThreads = true) (hthr : st.hasThrLogger = true)
    (hopen : st.fOpen = true) (hms : st.maxSize = 0) (hsm : st.sameMsgCountMax = 0)
    (htimer : st.thrTimer = none) (hq : ∀ x ∈ st.queue, x ≠ none)
    (hreg : regHas reg st.domain = true) :
    ∃ st', shutdown false st reg = .ok (st', regErase reg st.domain) ∧
      st'.fOpen = false ∧ st'.closes = st.closes + 1 ∧ st'.buf = [] ∧
      st'.queue = [] ∧ st'.doubleClose = st.doubleClose ∧
      st'.fileData = st.fileData ++ st.buf ++
        ((st.queue.filterMap id).map fun e => fmtLine none 0 e ++ "\n") := by
  have hrun : runThread (stopFinish false st) =
      logThreadGo (st.queue ++ [none])
        { st with queue := [], evtQueue := true, stopped := true } := rfl
  obtain ⟨d1, d2, d3, d4, d5, d6, d7⟩ :=
    logThreadGo_drain st.queue
      { st with queue := [], evtQueue := true, stopped := true } hq hopen hms hut hsm
  have hthr' : (stopFinish false st).hasThrLogger = true :=
    ((stopFinish_frame false st).2.2.2.1).trans hthr
  have hdom : (runThread (stopFinish false st)).domain = st.domain := by
    rw [hrun]
    exact d1
  rw [shutdown_of_stop false st (stopFinish false st) reg (stop_noTimer false st htimer),
    join_run (stopFinish false st) reg hthr' (by rw [hdom]; exact hreg)]
  refine ⟨{ runThread (stopFinish false st) with hasThrLogger := false },
    ?_, ?_, ?_, ?_, ?_, ?_, ?_⟩
  · rw [hdom]
  · show (runThread (stopFinish false st)).fOpen = false
    rw [hrun]
    exact d2
  · show (runThread (stopFinish false st)).closes = st.closes + 1
    rw [hrun]
    exact d3
  · show (runThread (stopFinish false st)).buf = []
    rw [hrun]
    exact d4
  · show (runThread (stopFinish false st)).queue = []
    rw [hrun]
    exact d5
  · show (runThread (stopFinish false st)).doubleClose = st.doubleClose
    rw [hrun]
    exact d6
  · show (runThread (stopFinish false st)).fileData = _
    rw [hrun]
    exact d7

/-- Witness for `c2_amended` at the asynchronous fixture with one queued
entry. -/
theorem c2_amended_witness :
    (c2async.useThreads = true ∧ c2async.thrTimer = none ∧
     regHas [("app", none)] c2async.domain = true) ∧
    (∃ st', shutdown false c2async [("app", none)] =
        .ok (st', regErase [("app", none)] c2async.domain) ∧
      st'.fOpen = false ∧ st'.closes = c2async.closes + 1 ∧ st'.buf = [] ∧
      st'.queue = [] ∧ st'.doubleClose = c2async.doubleClose ∧
      st'.fileData = c2async.fileData ++ c2async.buf ++
        ((c2async.queue.filterMap id).map fun e => fmtLine none 0 e ++ "\n")) :=
  ⟨⟨rfl, rfl, by decide⟩,
   c2_amended c2async [("app", none)] rfl rfl rfl rfl rfl rfl (by decide) (by decide)⟩

/-- C8: calling `stop()` twice in a row, or `shutdown()` after `stop()`, never
raises — the second `stop` finds no armed timer, and `join` still finds the
domain registered — and the file handle is never closed twice (the writer loop
closes only while the handle is open, and only up to the first sentinel). -/
theorem c8_stop_shutdown_idempotent (st : Lg) (reg : Reg) (now₁ now₂ : Bool)
    (hinv : st.thrTimer.isSome = true → st.lastMsg.entry.isSome = true)
    (hdc : st.doubleClose = false)
    (hreg : regHas reg st.domain = true) :
    ∃ st₁, stop now₁ st = .ok st₁ ∧
      (∃ st₂, stop now₂ st₁ = .ok st₂ ∧ st₂.doubleClose = false) ∧
      (∃ st₃ reg₃, shutdown now₂ st₁ reg = .ok (st₃, reg₃) ∧
        st₃.doubleClose = false) := by
  obtain ⟨st₁, hs1, ht1, hd1, hdc1, _, _, _, _⟩ := stop_ok now₁ st hinv
  have hdc1' : st₁.doubleClose = false := hdc1.trans hdc
  refine ⟨st₁, hs1, ?_, ?_⟩
  · rw [stop_noTimer now₂ st₁ ht1]
    obtain ⟨_, _, _, _, _, _, _, _, _, _, _, f12⟩ := stopFinish_frame now₂ st₁
    exact ⟨stopFinish now₂ st₁, rfl, f12.trans hdc1'⟩
  · rw [shutdown_of_stop now₂ st₁ (stopFinish now₂ st₁) reg (stop_noTimer now₂ st₁ ht1)]
    obtain ⟨g1, _, _, _, _, _, _, _, _, _, _, g12⟩ := stopFinish_frame now₂ st₁
    by_cases hthr : (stopFinish now₂ st₁).hasThrLogger = true
    · have hdom : (runThread (stopFinish now₂ st₁)).domain = st.domain := by
        have hgo := (logThreadGo_frame ((stopFinish now₂ st₁).queue)
          { stopFinish now₂ st₁ with queue := [] }).1
        calc (runThread (stopFinish now₂ st₁)).domain
            = ({ stopFinish now₂ st₁ with queue := [] } : Lg).domain := hgo
          _ = st₁.domain := g1
          _ = st.domain := hd1
      have hdcr : (runThread (stopFinish now₂ st₁)).doubleClose = false := by
        have hgo := (logThreadGo_frame ((stopFinish now₂ st₁).queue)
          { stopFinish now₂ st₁ with queue := [] }).2
        exact hgo.trans (g12.trans hdc1')
      rw [join_run (stopFinish now₂ st₁) reg hthr (by rw [hdom]; exact hreg)]
      exact ⟨_, _, rfl, hdcr⟩
    · rw [join_noThread (stopFinish now₂ st₁) reg
        (by rw [Bool.not_eq_true] at hthr; exact hthr)
        (show regHas reg (stopFinish now₂ st₁).domain = true by
          rw [g1, hd1]; exact hreg)]
      exact ⟨_, _, rfl, g12.trans hdc1'⟩

/-- Witness for `c8_stop_shutdown_idempotent` at the default fixture. -/
theorem c8_stop_shutdown_idempotent_witness :
    ∃ st₁, stop false c8state = .ok st₁ ∧
      (∃ st₂, stop false st₁ = .ok st₂ ∧ st₂.doubleClose = false) ∧
      (∃ st₃ reg₃, shutdown false st₁ [("app", none)] = .ok (st₃, reg₃) ∧
        st₃.doubleClose = false) :=
  c8_stop_shutdown_idempotent c8state [("app", none)] false false
    (by decide) rfl (by decide)

/-- C3: re-initializing a domain does not behave as claimed.  `GetLogger` on a
registered live logger stops and joins it, but `join` itself removes the
domain from the registry, so the subsequent `del domains[domain]` raises
`KeyError` and no replacement is registered.  `LogInit` first overwrites the
registry entry with the `None` placeholder, so the previous logger is never
stopped or joined at all — it then succeeds in registering a replacement. -/
theorem c3_reinit_divergence :
    errOfE (GetLogger "app" 0 none 0 0 false (fun _ => false) c3reg)
      = some "KeyError" ∧
    isOkE (LogInit "app" 0 none 0 0 false (fun _ => false) c3reg) = true := by
  decide

/-- C6 counterexample: sharing is keyed on the raw `pathName` string (line
112: `pathName == logger.pathName`), not on the resolved absolute path.  The
paths `d/log.txt` and `d/./log.txt` resolve to the same physical path, yet a
logger constructed with the second spelling does not share the first logger's
state and opens its own handle, so two handles are open on one physical
path — the claimed invariant fails. -/
theorem c6_counterexample :
    resolvePath "d/./log.txt" = resolvePath "d/log.txt" ∧
    ((mkLogger "b" 0 (some "d/./log.txt") 0 0 false (fun _ => true) c6reg).toOption.map
      fun lg => (lg.fOpen, openHandles (regSet c6reg "b" (some lg)) "d/log.txt")) =
      some (true, 2) := by
  decide

/-- C6 (amended): when the target directory exists and the limits are valid,
a new logger shares the already-registered logger's state (and opens no file
of its own) exactly when some registered logger has the *same path string*;
with no exact string match it opens its own handle, even if a registered
logger's path resolves to the same physical path. -/
theorem c6_amended (domain : String) (level : Int) (p : String)
    (maxSize backupCnt : Int) (useThreads : Bool) (dirExists : String → Bool)
    (reg : Reg) (hvalid : initInvalid maxSize backupCnt = false)
    (hdir : dirExists (dirName p) = true) :
    ∃ lg, mkLogger domain level (some p) maxSize backupCnt useThreads dirExists reg
        = .ok lg ∧
      lg.fOpen = !((reg.filterMap fun q => q.2).any fun l => l.pathName = some p) := by
  unfold mkLogger
  rw [if_neg (by simp [hvalid])]
  dsimp only
  rw [if_pos hdir]
  by_cases hany :
      ((reg.filterMap fun q => q.2).any fun l => decide (l.pathName = some p)) = true
  · rw [if_pos hany]
    exact ⟨_, rfl, by simp [hany]⟩
  · rw [if_neg hany]
    refine ⟨_, rfl, ?_⟩
    rw [Bool.not_eq_true] at hany
    simp [hany]

/-- Witness for `c6_amended`: the exact string `d/log.txt` is already open in
`c6reg`, so the new logger shares and opens no handle. -/
theorem c6_amended_witness :
    (initInvalid 0 0 = false ∧ (fun _ => true) (dirName "d/log.txt") = true) ∧
    (∃ lg, mkLogger "b" 0 (some "d/log.txt") 0 0 false (fun _ => true) c6reg
        = .ok lg ∧
      lg.fOpen =
        !((c6reg.filterMap fun q => q.2).any fun l => l.pathName = some "d/log.txt")) :=
  ⟨⟨by decide, rfl⟩,
   c6_amended "b" 0 "d/log.txt" 0 0 false (fun _ => true) c6reg (by decide) rfl⟩

end Fastlogging
